import Mathlib

/-!
# Verification of the Azul game-state model (`src/core/azul_model.py`)

A shallow embedding of the Azul game core: tile displays, agent boards,
round scoring, state construction, cloning, successor generation
(`generateSuccessor`), legal-action enumeration (`getLegalActions`) and
the Zobrist position hash.  Python integers are modelled as `Int`, lists
as `List`, Python `assert` failures as `Option.none`.  Randomised parts
(`random.shuffle`, `random.randrange`) are threaded as explicit
parameters.  Names follow the Python source.
-/

namespace Azul

/-- Python-style list read: a negative index wraps once from the end
(`l[-1]` is the last element).  An index that is out of range even after
wrapping returns the default (CPython raises there; such indices are
unreachable in the states the claims are about). -/
def pyGetI (l : List α) (d : α) (i : Int) : α :=
  if 0 ≤ i then l.getD i.toNat d
  else l.getD (l.length - (-i).toNat) d

/-- Python-style list write with single negative wrap; out of range is a
no-op (CPython raises there; unreachable in play). -/
def pySetI (l : List α) (i : Int) (x : α) : List α :=
  if 0 ≤ i then l.set i.toNat x
  else l.set (l.length - (-i).toNat) x

/-- Resolve a Python list index (with single negative wrap) to a
position, `none` when CPython would raise `IndexError`. -/
def pyIdx (len : Nat) (i : Int) : Option Nat :=
  if 0 ≤ i ∧ i < (len : Int) then some i.toNat
  else if i < 0 ∧ -i ≤ (len : Int) then some (len - (-i).toNat)
  else none

/-! ## Tile colours (`azul_utils.Tile`)

`azul_utils` is not part of the sources given; the enumeration values
are fixed by the grid-scheme assignments in `azul_model.py` and by the
colour table `{0:'B',1:'Y',2:'R',3:'K',4:'W'}` in `api/routes.py`. -/

def BLUE : Int := 0
def YELLOW : Int := 1
def RED : Int := 2
def BLACK : Int := 3
def WHITE : Int := 4

/-- Number of distinct tile colours. -/
def NUM_COLOURS : Nat := 5

/-- The wall-placement scheme set up in `AgentState.__init__`:
`grid_scheme[row][tile]` is the grid column for `tile` in `row`.
Row by row this is exactly the matrix the Python constructor assigns
entry by entry (e.g. `scheme[1][BLUE]=1`, `scheme[1][WHITE]=0`,
`scheme[1][BLACK]=4`, `scheme[1][RED]=3`, `scheme[1][YELLOW]=2`). -/
def grid_scheme : List (List Int) :=
  [[0, 1, 2, 3, 4],
   [1, 2, 3, 4, 0],
   [2, 3, 4, 0, 1],
   [3, 4, 0, 1, 2],
   [4, 0, 1, 2, 3]]

/-- `int(grid_scheme[row][tile])` with Python (numpy) indexing. -/
def schemeAt (row : Nat) (tile : Int) : Int :=
  pyGetI (grid_scheme.getD row []) 0 tile

/-! ## Tile displays (`AzulState.TileDisplay`)

The Python `tiles` dict always has exactly the keys `0..4`; it is
modelled as a 5-element list of counts. -/

structure TileDisplay where
  tiles : List Int
  total : Int
deriving Repr, DecidableEq

/-- A fresh, empty display (`TileDisplay.__init__`). -/
def TileDisplay.init : TileDisplay :=
  { tiles := List.replicate 5 0, total := 0 }

/-- `TileDisplay.ReactionTiles`: remove `number` tiles of type
`tile_type`.  The Python asserts (`number > 0`, `tile_type in Tile`,
count and total non-negative afterwards) are modelled as `none`. -/
def TileDisplay.ReactionTiles (d : TileDisplay) (number : Int) (tile_type : Int) :
    Option TileDisplay :=
  if number > 0 ∧ 0 ≤ tile_type ∧ tile_type < 5 then
    let tiles' := d.tiles.set tile_type.toNat (d.tiles.getD tile_type.toNat 0 - number)
    let total' := d.total - number
    if 0 ≤ tiles'.getD tile_type.toNat 0 ∧ 0 ≤ total' then
      some { tiles := tiles', total := total' }
    else none
  else none

/-- `TileDisplay.AddTiles`: add `number` tiles of type `tile_type`;
asserts `number > 0` and a valid tile type. -/
def TileDisplay.AddTiles (d : TileDisplay) (number : Int) (tile_type : Int) :
    Option TileDisplay :=
  if number > 0 ∧ 0 ≤ tile_type ∧ tile_type < 5 then
    some { tiles := d.tiles.set tile_type.toNat (d.tiles.getD tile_type.toNat 0 + number),
           total := d.total + number }
  else none

/-! ## Agent boards (`AzulState.AgentState`)

`grid_scheme` is identical for every agent (the constructor always
builds the same matrix), so it is kept as the global `grid_scheme`
above rather than per-agent data.  `agent_trace` is bookkeeping for
replays only and is not modelled. -/

def GRID_SIZE : Nat := 5
def FLOOR_SCORES : List Int := [-1, -1, -2, -2, -2, -3, -3]
def ROW_BONUS : Int := 2
def COL_BONUS : Int := 7
def SET_BONUS : Int := 10

structure AgentState where
  id : Int
  score : Int
  lines_number : List Int
  lines_tile : List Int
  grid_state : List (List Int)
  floor : List Int
  floor_tiles : List Int
  number_of : List Int
deriving Repr, DecidableEq

/-- `AgentState.__init__(_id)`: empty board. -/
def AgentState.init (i : Int) : AgentState :=
  { id := i
    score := 0
    lines_number := List.replicate 5 0
    lines_tile := List.replicate 5 (-1)
    grid_state := List.replicate 5 (List.replicate 5 0)
    floor := List.replicate 7 0
    floor_tiles := []
    number_of := List.replicate 5 0 }

/-- The tile-placing loop of `AgentState.AddToFloor`: walk the floor
slots in order; a free slot (`0`) takes the next tile.  Returns the new
floor, the tiles placed (in order) and the leftover tiles. -/
def addToFloorGo : List Int → List Int → List Int × List Int × List Int
  | fl, [] => (fl, [], [])
  | [], ts => ([], [], ts)
  | f :: fl, t :: ts =>
    if f = 0 then
      let r := addToFloorGo fl ts
      (1 :: r.1, t :: r.2.1, r.2.2)
    else
      let r := addToFloorGo fl (t :: ts)
      (f :: r.1, r.2.1, r.2.2)

/-- `AgentState.AddToFloor(tiles)`: returns the updated agent and the
tiles that could not be added (which the Python leaves in the argument
list). -/
def AgentState.AddToFloor (ag : AgentState) (tiles : List Int) :
    AgentState × List Int :=
  let r := addToFloorGo ag.floor tiles
  ({ ag with floor := r.1, floor_tiles := ag.floor_tiles ++ r.2.1 }, r.2.2)

/-- `AgentState.AddToPatternLine(line, number, tile_type)`; the three
Python asserts (line in range, line empty or of the same colour,
resulting fill count within capacity) are modelled as `none`. -/
def AgentState.AddToPatternLine (ag : AgentState) (line : Int) (number : Int)
    (tile_type : Int) : Option AgentState :=
  if 0 ≤ line ∧ line < (GRID_SIZE : Int) then
    let l := line.toNat
    if ag.lines_tile.getD l 0 = -1 ∨ ag.lines_tile.getD l 0 = tile_type then
      let ln' := ag.lines_number.set l (ag.lines_number.getD l 0 + number)
      if ln'.getD l 0 ≤ line + 1 then
        some { ag with lines_number := ln', lines_tile := ag.lines_tile.set l tile_type }
      else none
    else none
  else none

/-- `AgentState.GiveFirstAgentToken`: occupy the first free floor slot
(no tile is appended to `floor_tiles`). -/
def giveTokenGo : List Int → List Int
  | [] => []
  | f :: fl => if f = 0 then 1 :: fl else f :: giveTokenGo fl

def AgentState.GiveFirstAgentToken (ag : AgentState) : AgentState :=
  { ag with floor := giveTokenGo ag.floor }

/-! ## Round scoring (`AgentState.ScoreRound`) -/

/-- Sum cells while non-zero, stopping at the first `0` — mirrors the
`val += ...; if val == 0: break` run-counting loops of `ScoreRound`. -/
def sumRun (l : List Int) : Int :=
  (l.takeWhile (· ≠ 0)).foldl (· + ·) 0

/-- Read `grid[r][c]` with Python indexing on the column. -/
def pyGet2 (g : List (List Int)) (r : Nat) (c : Int) : Int :=
  pyGetI (g.getD r []) 0 c

/-- Write `grid[r][c] = v` with Python indexing on the column. -/
def pySet2 (g : List (List Int)) (r : Nat) (c : Int) (v : Int) : List (List Int) :=
  g.set r (pySetI (g.getD r []) c v)

/-- One iteration of the pattern-line loop of `ScoreRound` (line `i`):
if the line is full, move one tile to the wall at the scheme column,
record it in `number_of`, push the other `i` tiles to the used pile,
clear the line and score the placement by its contiguous row/column
runs.  The accumulator is `(agent, score_inc, used_tiles)`. -/
def scoreRoundLine (acc : AgentState × Int × List Int) (i : Nat) :
    AgentState × Int × List Int :=
  let ag := acc.1
  let inc := acc.2.1
  let used := acc.2.2
  if ag.lines_number.getD i 0 = (i : Int) + 1 then
    let tc := ag.lines_tile.getD i 0
    let col := schemeAt i tc
    -- `self.number_of[tc] += 1` (dict keyed by the five tile colours;
    -- a full line always carries a real colour in reachable states)
    let number_of' :=
      if 0 ≤ tc ∧ tc < 5 then
        ag.number_of.set tc.toNat (ag.number_of.getD tc.toNat 0 + 1)
      else ag.number_of
    let used' := used ++ List.replicate i tc
    let grid' := pySet2 ag.grid_state i col 1
    let row := grid'.getD i []
    let above := sumRun ((row.take col.toNat).reverse)
    let below := sumRun (row.drop (col + 1).toNat)
    let colList := (List.range GRID_SIZE).map (fun j => pyGetI (grid'.getD j []) 0 col)
    let left := sumRun ((colList.take i).reverse)
    let right := sumRun (colList.drop (i + 1))
    let inc' := inc
      + (if above > 0 ∨ below > 0 then 1 + above + below else 0)
      + (if left > 0 ∨ right > 0 then 1 + left + right else 0)
      + (if above = 0 ∧ below = 0 ∧ left = 0 ∧ right = 0 then 1 else 0)
    ({ ag with
        number_of := number_of'
        lines_tile := ag.lines_tile.set i (-1)
        lines_number := ag.lines_number.set i 0
        grid_state := grid' },
      inc', used')
  else acc

/-- Phase 1 of `ScoreRound`: the loop over the five pattern lines. -/
def scoreRoundPlacement (ag : AgentState) : AgentState × Int × List Int :=
  (List.range GRID_SIZE).foldl scoreRoundLine (ag, 0, [])

/-- The floor-line penalty sum of `ScoreRound`
(`penalties += floor[i] * FLOOR_SCORES[i]`; penalties are ≤ 0). -/
def floorPenalty (ag : AgentState) : Int :=
  (ag.floor.zip FLOOR_SCORES).foldl (fun p ft => p + ft.1 * ft.2) 0

/-- `AgentState.ScoreRound`: returns the updated agent together with
the pair the Python returns — `(self.score, used_tiles)`, i.e. the
agent's updated running total and the tiles for the used bag. -/
def AgentState.ScoreRound (ag : AgentState) : AgentState × Int × List Int :=
  let r := scoreRoundPlacement ag
  let ag1 := r.1
  let penalties := floorPenalty ag1
  let used := r.2.2 ++ ag1.floor_tiles
  let ag2 := { ag1 with floor := ag1.floor.map (fun _ => 0), floor_tiles := [] }
  let score_change := r.2.1 + penalties
  let score_change :=
    if score_change < 0 ∧ ag2.score < -score_change then -ag2.score else score_change
  let ag3 := { ag2 with score := ag2.score + score_change }
  (ag3, ag3.score, used)

/-! ## The game state (`AzulState`) -/

def NUM_FACTORIES : Nat := 5
def NUM_TILE_TYPE : Nat := 20
def NUM_ON_FACTORY : Nat := 4

structure AzulState where
  agents : List AgentState
  bag : List Int
  bag_used : List Int
  factories : List TileDisplay
  centre_pool : TileDisplay
  first_agent_taken : Bool
  first_agent : Int
  next_first_agent : Int
deriving Repr, DecidableEq

/-- The bag contents built by `AzulState.__init__` before shuffling:
`NUM_TILE_TYPE` repetitions of BLUE, YELLOW, RED, BLACK, WHITE. -/
def initialBag : List Int :=
  (List.range NUM_TILE_TYPE).flatMap (fun _ => [BLUE, YELLOW, RED, BLACK, WHITE])

/-- The dealing loop of `InitialiseFactory`: pop `n` tiles off the front
of the bag onto the display (`factory.tiles[tile] += 1`). -/
def dealGo : Nat → List Int → TileDisplay → List Int × TileDisplay
  | 0, bag, f => (bag, f)
  | _ + 1, [], f => ([], f)
  | n + 1, t :: bag, f =>
    if 0 ≤ t ∧ t < 5 then
      dealGo n bag
        { tiles := f.tiles.set t.toNat (f.tiles.getD t.toNat 0 + 1), total := f.total + 1 }
    else
      -- a non-colour tile in the bag would raise `KeyError` in Python;
      -- unreachable, modelled as skipping the update
      dealGo n bag f

/-- `AzulState.InitialiseFactory`: reset the given display, reshuffle
the used bag into the main bag when the main bag is short, then deal up
to `NUM_ON_FACTORY` tiles.  The shuffle of the used bag is threaded as
the explicit parameter `shuffleUsed`.  Returns the new bag, used bag
and display. -/
def InitialiseFactory (shuffleUsed : List Int → List Int)
    (bag bag_used : List Int) (_factory : TileDisplay) :
    List Int × List Int × TileDisplay :=
  let fac0 : TileDisplay := { tiles := List.replicate 5 0, total := 0 }
  let br :=
    if bag.length < NUM_ON_FACTORY ∧ bag_used ≠ [] then
      (bag ++ shuffleUsed bag_used, ([] : List Int))
    else (bag, bag_used)
  let dr := dealGo (min NUM_ON_FACTORY br.1.length) br.1 fac0
  (dr.1, br.2, dr.2)

/-- One iteration of the factory-construction loop of
`AzulState.__init__`: initialise a fresh display from the bag (the used
bag is empty during construction) and append it. -/
def initFactoryStep (acc : List Int × List TileDisplay) (_i : Nat) :
    List Int × List TileDisplay :=
  let r := InitialiseFactory id acc.1 [] TileDisplay.init
  (r.1, acc.2 ++ [r.2.2])

/-- `AzulState.__init__(num_agents)`: the shuffled bag and the
pseudo-randomly chosen first agent (`random.shuffle` /
`random.randrange`) are explicit parameters.  `random.randrange(0)`
raises in Python, so an agent count of `0` yields `none`. -/
def AzulState.init (num_agents : Nat) (shuffledBag : List Int) (first_agent : Int) :
    Option AzulState :=
  if num_agents = 0 then none
  else
    let agents := (List.range num_agents).map (fun (i : Nat) => AgentState.init (i : Int))
    let fr := (List.range NUM_FACTORIES).foldl initFactoryStep (shuffledBag, [])
    some
      { agents := agents
        bag := fr.1
        bag_used := []
        factories := fr.2
        centre_pool := TileDisplay.init
        first_agent_taken := false
        first_agent := first_agent
        next_first_agent := -1 }

/-- `AzulState.TilesRemaining`. -/
def AzulState.TilesRemaining (s : AzulState) : Bool :=
  s.centre_pool.total > 0 || s.factories.any (fun f => f.total > 0)

/-- `AzulState.clone`: builds a fresh `AzulState` and copies `score`,
`lines_number`, `lines_tile`, `grid_state`, `floor`, `floor_tiles` and
`agent_trace` for each agent, the two bags, the displays and the turn
flags.  `number_of` is **not** copied: it keeps the freshly initialised
zero counters of `AgentState.__init__` (and the fresh agent's `id` is
its position).  The fresh random bag dealt by the constructor is
overwritten by the source's bags and displays, so `clone` is a total
function of the source state. -/
def AzulState.clone (s : AzulState) : AzulState :=
  { agents := s.agents.enum.map (fun p =>
      { AgentState.init (p.1 : Int) with
          score := p.2.score
          lines_number := p.2.lines_number
          lines_tile := p.2.lines_tile
          grid_state := p.2.grid_state
          floor := p.2.floor
          floor_tiles := p.2.floor_tiles })
    bag := s.bag
    bag_used := s.bag_used
    factories := s.factories.map (fun f => { tiles := f.tiles, total := f.total })
    centre_pool := { tiles := s.centre_pool.tiles, total := s.centre_pool.total }
    first_agent_taken := s.first_agent_taken
    first_agent := s.first_agent
    next_first_agent := s.next_first_agent }

/-- `AzulState.is_game_over`: some agent has a fully occupied grid row. -/
def AzulState.is_game_over (s : AzulState) : Bool :=
  s.agents.any (fun ag =>
    (List.range 5).any (fun r =>
      (List.range 5).all (fun c => pyGet2 ag.grid_state r (c : Int) = 1)))

/-! ## Actions (`azul_utils.TileGrab` / `Action`)

`azul_utils` is not among the sources; `TileGrab` is modelled from the
spec's Action variant and from its uses in `azul_model.py` and
`api/routes.py`: a take is `N` tiles of one colour from a factory or
the centre, split between one pattern line and the floor.  The field
defaults (`number = 0`, `tile_type = -1`, `pattern_line_dest = -1`,
`num_to_pattern_line = 0`, `num_to_floor_line = 0`) are the ones the
enumeration in `getLegalActions` relies on: the floor-dump action sets
only `number`, `tile_type` and `num_to_floor_line`. -/

structure TileGrab where
  number : Int := 0
  tile_type : Int := -1
  pattern_line_dest : Int := -1
  num_to_pattern_line : Int := 0
  num_to_floor_line : Int := 0
deriving Repr, DecidableEq

/-- A game action: the strings `"ENDROUND"` / `"STARTROUND"` or a tuple
`(Action.TAKE_FROM_FACTORY, factory_id, tile_grab)` /
`(Action.TAKE_FROM_CENTRE, -1, tile_grab)`. -/
inductive GameAction where
  | ENDROUND
  | STARTROUND
  | TAKE_FROM_FACTORY (fid : Int) (tg : TileGrab)
  | TAKE_FROM_CENTRE (tg : TileGrab)
deriving Repr, DecidableEq

/-! ## Successor generation (`AzulGameRule.generateSuccessor`) -/

/-- The factory-overflow loop of the `TAKE_FROM_FACTORY` branch: every
remaining tile on the display moves to the centre pool. -/
def moveOverflowGo (fac centre : TileDisplay) : List Nat → Option (TileDisplay × TileDisplay)
  | [] => some (fac, centre)
  | t :: ts =>
    let num_on_fd := fac.tiles.getD t 0
    if num_on_fd > 0 then do
      let centre' ← centre.AddTiles num_on_fd (t : Int)
      let fac' ← fac.ReactionTiles num_on_fd (t : Int)
      moveOverflowGo fac' centre' ts
    else moveOverflowGo fac centre ts

/-- `AzulGameRule.generateSuccessor(state, action, agent_id)`.  The
Python mutates `state` in place and returns it; here the successor is
returned, with `none` for the assertion failures of the tile
bookkeeping (`AddToPatternLine`, `ReactionTiles`, `AddTiles`) and for
an out-of-range `agent_id`/factory id (Python `IndexError`).  No
legality check against `getLegalActions` is performed — faithfully to
the source.  `shuffleUsed` threads the `random.shuffle` of
`InitialiseFactory` for the `STARTROUND` branch. -/
def generateSuccessor (shuffleUsed : List Int → List Int) (s : AzulState)
    (action : GameAction) (agent_id : Int) : Option AzulState :=
  match action with
  | .ENDROUND =>
    let r := s.agents.foldl
      (fun (acc : List AgentState × List Int) plr =>
        let sr := plr.ScoreRound
        (acc.1 ++ [sr.1], acc.2 ++ sr.2.2))
      ([], [])
    some { s with
        agents := r.1
        bag_used := s.bag_used ++ r.2
        first_agent_taken := false
        first_agent := s.next_first_agent
        next_first_agent := -1 }
  | .STARTROUND =>
    let r := s.factories.foldl
      (fun (acc : List Int × List Int × List TileDisplay) fd =>
        let ir := InitialiseFactory shuffleUsed acc.1 acc.2.1 fd
        (ir.1, ir.2.1, acc.2.2 ++ [ir.2.2]))
      (s.bag, s.bag_used, [])
    -- the source zeroes the centre's tile counts but leaves
    -- `centre_pool.total` untouched
    some { s with
        bag := r.1
        bag_used := r.2.1
        factories := r.2.2
        centre_pool := { s.centre_pool with tiles := List.replicate 5 0 } }
  | .TAKE_FROM_CENTRE tg => do
    let idx ← pyIdx s.agents.length agent_id
    let plr := s.agents.getD idx (AgentState.init 0)
    let tk :=
      if s.first_agent_taken then (plr, s.next_first_agent)
      else (plr.GiveFirstAgentToken, agent_id)
    let fl :=
      if tg.num_to_floor_line > 0 then
        let ttf := List.replicate tg.num_to_floor_line.toNat tg.tile_type
        let fr := tk.1.AddToFloor ttf
        (fr.1, s.bag_used ++ fr.2)
      else (tk.1, s.bag_used)
    let plr ←
      if tg.num_to_pattern_line > 0 then
        fl.1.AddToPatternLine tg.pattern_line_dest tg.num_to_pattern_line tg.tile_type
      else some fl.1
    let centre' ← s.centre_pool.ReactionTiles tg.number tg.tile_type
    some { s with
        agents := s.agents.set idx plr
        bag_used := fl.2
        centre_pool := centre'
        first_agent_taken := true
        next_first_agent := tk.2 }
  | .TAKE_FROM_FACTORY fid tg => do
    let idx ← pyIdx s.agents.length agent_id
    let plr := s.agents.getD idx (AgentState.init 0)
    let fl :=
      if tg.num_to_floor_line > 0 then
        let ttf := List.replicate tg.num_to_floor_line.toNat tg.tile_type
        let fr := plr.AddToFloor ttf
        (fr.1, s.bag_used ++ fr.2)
      else (plr, s.bag_used)
    let plr ←
      if tg.num_to_pattern_line > 0 then
        fl.1.AddToPatternLine tg.pattern_line_dest tg.num_to_pattern_line tg.tile_type
      else some fl.1
    let fidx ← pyIdx s.factories.length fid
    let fac := s.factories.getD fidx TileDisplay.init
    let fac ← fac.ReactionTiles tg.number tg.tile_type
    let mo ← moveOverflowGo fac s.centre_pool (List.range 5)
    some { s with
        agents := s.agents.set idx plr
        bag_used := fl.2
        factories := s.factories.set fidx mo.1
        centre_pool := mo.2 }

/-! ## Legal-action enumeration (`AzulGameRule.getLegalActions`) -/

/-- The inner pattern-line loop of the enumeration, shared verbatim by
the factory and centre loop bodies in the source: for each pattern line
that is unassigned or assigned this colour and whose grid cell for this
colour is still free, take all `num_avail` tiles, `min(num_avail,
slots_free)` of them onto the line and the rest to the floor. -/
def takeOptionsFor (ag : AgentState) (num_avail : Int) (tile : Nat) : List TileGrab :=
  (List.range GRID_SIZE).filterMap (fun i =>
    -- `lines_tile[i] != -1 and lines_tile[i] != tile` → skip this line
    if ag.lines_tile.getD i 0 ≠ -1 ∧ ag.lines_tile.getD i 0 ≠ (tile : Int) then none
    -- `grid_state[i][int(grid_scheme[i][tile])] == 1` → skip this line
    else if pyGet2 ag.grid_state i (schemeAt i (tile : Int)) = 1 then none
    -- `slots_free = (i+1) - lines_number[i]`
    else
      some { number := num_avail
             tile_type := (tile : Int)
             pattern_line_dest := (i : Int)
             num_to_pattern_line :=
               min num_avail (((i : Int) + 1) - ag.lines_number.getD i 0)
             num_to_floor_line :=
               num_avail - min num_avail (((i : Int) + 1) - ag.lines_number.getD i 0) })

/-- One colour's contribution for one display (the body of the
per-tile loop): nothing when the count is zero (`continue`), otherwise
the pattern-line placements followed by the all-to-floor default
action. -/
def displayTakesFor (mk : TileGrab → GameAction) (tiles : List Int) (ag : AgentState)
    (tile : Nat) : List GameAction :=
  -- `num_avail = display.tiles[tile]`; `continue` when zero
  if tiles.getD tile 0 = 0 then []
  else
    (takeOptionsFor ag (tiles.getD tile 0) tile).map mk ++
      [mk { number := tiles.getD tile 0
            tile_type := (tile : Int)
            num_to_floor_line := tiles.getD tile 0 }]

/-- One display's contribution to the enumeration (the loop used for
each factory and for the centre pool): the per-colour contributions in
colour order. -/
def displayTakes (mk : TileGrab → GameAction) (tiles : List Int) (ag : AgentState) :
    List GameAction :=
  (List.range 5).flatMap (displayTakesFor mk tiles ag)

/-- `AzulGameRule.getLegalActions(game_state, agent_id)`;
`num_of_agent` is the agent count the rule was constructed with. -/
def getLegalActions (num_of_agent : Nat) (s : AzulState) (agent_id : Int) :
    List GameAction :=
  if ¬s.TilesRemaining ∧ s.next_first_agent ≠ -1 then [.ENDROUND]
  else if agent_id = (num_of_agent : Int) then [.STARTROUND]
  else
    match pyIdx s.agents.length agent_id with
    | none => []  -- Python raises IndexError for an invalid agent id
    | some idx =>
      let ag := s.agents.getD idx (AgentState.init 0)
      s.factories.enum.flatMap
        (fun p => displayTakes (GameAction.TAKE_FROM_FACTORY (p.1 : Int)) p.2.tiles ag) ++
      displayTakes GameAction.TAKE_FROM_CENTRE s.centre_pool.tiles ag

/-! ## Position hashing (`AzulState._compute_zobrist_hash` /
`AzulState.update_zobrist_hash`)

The Zobrist tables are `numpy.random` values drawn from a seeded RNG;
their concrete values are not reproducible here, so the tables are a
parameter.  `hash(str(agent.score)) & 0xFFFFFFFFFFFFFFFF` — the score
contribution of `_compute_zobrist_hash`, which is *not* a Zobrist-table
entry — is likewise an opaque function parameter `H`. -/

structure ZobristTables where
  grid : Nat → Nat → Nat → Int → Nat
  floor : Nat → Nat → Int → Nat
  pattern : Nat → Nat → Int → Nat
  factory : Nat → Nat → Nat
  center : Nat → Nat
  first_player : Nat → Nat

/-- `AzulState._get_tile_at_position`: the first tile colour whose
scheme column in `row` is `col` (`-1` if none). -/
def tileAtPosition (row col : Nat) : Int :=
  (((List.range 5).find? (fun t => schemeAt row (t : Int) = (col : Int))).map
    (fun t => (t : Int))).getD (-1)

/-- XOR of a list of 64-bit terms, in order (`hash_value ^= term`). -/
def xorL (l : List Nat) : Nat := l.foldl Nat.xor 0

/-- First loop of `_compute_zobrist_hash` for one agent: the masked
`hash(str(score))` followed by one grid-table term per occupied cell. -/
def agentScoreGridTerms (T : ZobristTables) (H : Int → Nat) (aid : Nat)
    (ag : AgentState) : List Nat :=
  H ag.score ::
    (List.range 5).flatMap (fun row =>
      (List.range 5).filterMap (fun (col : Nat) =>
        if pyGet2 ag.grid_state row (col : Int) = 1 then
          some (T.grid aid row col (tileAtPosition row col))
        else none))

/-- Floor terms: one per tile actually sitting in `floor_tiles`
(the `tile is not None` test always holds for the integer tiles). -/
def agentFloorTerms (T : ZobristTables) (aid : Nat) (ag : AgentState) : List Nat :=
  ag.floor_tiles.enum.map (fun p => T.floor aid p.1 p.2)

/-- Pattern-line terms: one per line currently assigned a colour. -/
def agentPatternTerms (T : ZobristTables) (aid : Nat) (ag : AgentState) : List Nat :=
  (List.range 5).filterMap (fun line =>
    if ag.lines_tile.getD line 0 ≠ -1 then
      some (T.pattern aid line (ag.lines_tile.getD line 0))
    else none)

/-- Factory terms: one per colour present (count `> 0`) on the display. -/
def factoryTerms (T : ZobristTables) (fid : Nat) (fd : TileDisplay) : List Nat :=
  (List.range 5).filterMap (fun t =>
    if fd.tiles.getD t 0 > 0 then some (T.factory fid t) else none)

/-- Centre terms: one per colour present in the centre pool. -/
def centerTerms (T : ZobristTables) (s : AzulState) : List Nat :=
  (List.range 5).filterMap (fun t =>
    if s.centre_pool.tiles.getD t 0 > 0 then some (T.center t) else none)

/-- First-player-token term (`if self.first_agent >= 0`). -/
def firstPlayerTerms (T : ZobristTables) (s : AzulState) : List Nat :=
  if 0 ≤ s.first_agent then [T.first_player s.first_agent.toNat] else []

/-- `AzulState._compute_zobrist_hash`: XOR of all the terms, in the
source's loop order. -/
def computeZobristHash (T : ZobristTables) (H : Int → Nat) (s : AzulState) : Nat :=
  xorL
    (s.agents.enum.flatMap (fun p => agentScoreGridTerms T H p.1 p.2) ++
     s.agents.enum.flatMap (fun p => agentFloorTerms T p.1 p.2) ++
     s.agents.enum.flatMap (fun p => agentPatternTerms T p.1 p.2) ++
     s.factories.enum.flatMap (fun p => factoryTerms T p.1 p.2) ++
     centerTerms T s ++
     firstPlayerTerms T s)

/-- One entry of the `changes` list taken by `update_zobrist_hash`: a
Zobrist table name together with the indices into it. -/
inductive ZChange where
  | grid (a row col : Nat) (t : Int)
  | floor (a pos : Nat) (t : Int)
  | pattern (a line : Nat) (t : Int)
  | factory (f t : Nat)
  | center (t : Nat)
  | first_player (a : Nat)
deriving Repr, DecidableEq

/-- `self._ZOBRIST_TABLES[table_name][indices]`. -/
def lookupTerm (T : ZobristTables) : ZChange → Nat
  | .grid a row col t => T.grid a row col t
  | .floor a pos t => T.floor a pos t
  | .pattern a line t => T.pattern a line t
  | .factory f t => T.factory f t
  | .center t => T.center t
  | .first_player a => T.first_player a

/-- `AzulState.update_zobrist_hash(old_hash, changes)`: re-XOR the
named table terms onto the old hash. -/
def update_zobrist_hash (T : ZobristTables) (old_hash : Nat)
    (changes : List ZChange) : Nat :=
  changes.foldl (fun h c => h ^^^ lookupTerm T c) old_hash

/-- Positional difference of two tile-lists, as floor-table changes for
agent `aid`: every position whose entry appears in exactly one of the
two lists, or differs between them, contributes its term(s). -/
def floorDiff (aid : Nat) (l l' : List Int) : List ZChange :=
  (List.range (max l.length l'.length)).flatMap (fun p =>
    match l.get? p, l'.get? p with
    | some t, some t' => if t = t' then [] else [.floor aid p t, .floor aid p t']
    | some t, none => [.floor aid p t]
    | none, some t' => [.floor aid p t']
    | none, none => [])

/-- The exact set of Zobrist-table terms whose presence in
`_compute_zobrist_hash` differs between two states (same agent and
factory counts): the changed grid cells, floor slots, pattern lines,
display presences and token holder.  This is the `changes` list the
spec's incremental update would re-XOR for one `apply`. -/
def zobristChanges (s s' : AzulState) : List ZChange :=
  (List.range s.agents.length).flatMap (fun aid =>
    let ag := s.agents.getD aid (AgentState.init 0)
    let ag' := s'.agents.getD aid (AgentState.init 0)
    ((List.range 5).flatMap (fun row =>
      (List.range 5).filterMap (fun (col : Nat) =>
        if (pyGet2 ag.grid_state row (col : Int) = 1) ≠
            (pyGet2 ag'.grid_state row (col : Int) = 1) then
          some (.grid aid row col (tileAtPosition row col))
        else none)))
    ++ floorDiff aid ag.floor_tiles ag'.floor_tiles
    ++ (List.range 5).flatMap (fun line =>
        let t := ag.lines_tile.getD line 0
        let t' := ag'.lines_tile.getD line 0
        if t = t' then []
        else (if t ≠ -1 then [ZChange.pattern aid line t] else []) ++
             (if t' ≠ -1 then [ZChange.pattern aid line t'] else [])))
  ++ (List.range s.factories.length).flatMap (fun fid =>
      (List.range 5).filterMap (fun t =>
        if ((s.factories.getD fid TileDisplay.init).tiles.getD t 0 > 0) ≠
            ((s'.factories.getD fid TileDisplay.init).tiles.getD t 0 > 0) then
          some (.factory fid t)
        else none))
  ++ (List.range 5).filterMap (fun t =>
      if (s.centre_pool.tiles.getD t 0 > 0) ≠ (s'.centre_pool.tiles.getD t 0 > 0) then
        some (.center t)
      else none)
  ++ (if s.first_agent = s'.first_agent then []
      else (if 0 ≤ s.first_agent then [ZChange.first_player s.first_agent.toNat] else []) ++
           (if 0 ≤ s'.first_agent then [ZChange.first_player s'.first_agent.toNat] else []))

/-! ## Tile accounting (for the conservation claim) -/

/-- Tiles on one display, counted from the per-colour counts. -/
def displayCount (d : TileDisplay) : Int := d.tiles.foldl (· + ·) 0

/-- Occupied wall-grid cells of one agent. -/
def gridCount (ag : AgentState) : Int :=
  ag.grid_state.foldl
    (fun a row => a + row.foldl (fun b v => b + (if v = 1 then 1 else 0)) 0) 0

/-- Tiles held by one agent: wall cells, floor-line tiles and
pattern-line fills (the first-player token is not a tile). -/
def agentTiles (ag : AgentState) : Int :=
  gridCount ag + (ag.floor_tiles.length : Int) + ag.lines_number.foldl (· + ·) 0

/-- Total tile count of a state: bag + used bag + factory displays +
centre pool + all agents' boards. -/
def totalTiles (s : AzulState) : Int :=
  (s.bag.length : Int) + (s.bag_used.length : Int) +
    s.factories.foldl (fun a f => a + displayCount f) 0 +
    displayCount s.centre_pool +
    s.agents.foldl (fun a ag => a + agentTiles ag) 0

/-! ## Spec-side description of the drafting action set (claim C5)

These definitions transcribe the *claim's* wording (one take action per
display, colour with at least one tile, and eligible destination line,
plus one all-to-floor default), to be compared with the enumeration
`getLegalActions` embedded from the source. -/

/-- Claim C5's eligibility of a destination pattern line: the line is
unassigned or already assigned that colour, and the grid cell for that
colour and row is unoccupied. -/
def specEligible (ag : AgentState) (tile i : Nat) : Prop :=
  (ag.lines_tile.getD i 0 = -1 ∨ ag.lines_tile.getD i 0 = (tile : Int)) ∧
  pyGet2 ag.grid_state i (schemeAt i (tile : Int)) ≠ 1

instance (ag : AgentState) (tile i : Nat) : Decidable (specEligible ag tile i) := by
  unfold specEligible
  infer_instance

/-- Claim C5's pattern-line take: all `count` tiles of the colour,
`min(count, free slots)` of them onto line `i`, the remainder to the
floor. -/
def specLineGrab (ag : AgentState) (count : Int) (tile i : Nat) : TileGrab :=
  { number := count
    tile_type := (tile : Int)
    pattern_line_dest := (i : Int)
    num_to_pattern_line := min count ((i : Int) + 1 - ag.lines_number.getD i 0)
    num_to_floor_line := count - min count ((i : Int) + 1 - ag.lines_number.getD i 0) }

/-- Claim C5's default action: all tiles of the colour to the floor. -/
def specFloorGrab (count : Int) (tile : Nat) : TileGrab :=
  { number := count, tile_type := (tile : Int), num_to_floor_line := count }

/-- Claim C5's action set: for every display (each factory and the
centre pool) and every colour with at least one tile there, one take
action per eligible destination line plus one default floor action —
and nothing else. -/
def IsLegalTakeSpec (s : AzulState) (ag : AgentState) (a : GameAction) : Prop :=
  (∃ fid < s.factories.length, ∃ tile < 5,
      1 ≤ (s.factories.getD fid TileDisplay.init).tiles.getD tile 0 ∧
      ((∃ i < 5, specEligible ag tile i ∧
          a = .TAKE_FROM_FACTORY (fid : Int)
                (specLineGrab ag ((s.factories.getD fid TileDisplay.init).tiles.getD tile 0) tile i)) ∨
        a = .TAKE_FROM_FACTORY (fid : Int)
              (specFloorGrab ((s.factories.getD fid TileDisplay.init).tiles.getD tile 0) tile))) ∨
  (∃ tile < 5,
      1 ≤ s.centre_pool.tiles.getD tile 0 ∧
      ((∃ i < 5, specEligible ag tile i ∧
          a = .TAKE_FROM_CENTRE (specLineGrab ag (s.centre_pool.tiles.getD tile 0) tile i)) ∨
        a = .TAKE_FROM_CENTRE (specFloorGrab (s.centre_pool.tiles.getD tile 0) tile)))

instance (s : AzulState) (ag : AgentState) (a : GameAction) :
    Decidable (IsLegalTakeSpec s ag a) := by
  unfold IsLegalTakeSpec
  infer_instance

/-! ## Concrete fixtures used by the individual claims -/

/-- Fallback state for `Option.getD` (never actually selected). -/
def defaultState : AzulState :=
  ⟨[], [], [], [], TileDisplay.init, false, 0, 0⟩

/-- The initial 2-player game state, with the identity permutation as
the bag shuffle and agent 0 as the randomly chosen first agent.  (Tile
accounting does not depend on either random choice.) -/
def s0C1 : AzulState := (AzulState.init 2 initialBag 0).getD defaultState

/-- C2 fixture: pattern line 2 (length 3) completely filled with BLUE,
whose wall cell is `(2,2)`; the wall already holds exactly one
horizontal neighbour `(2,1)` and one vertical neighbour `(1,2)`; the
floor line is empty. -/
def agC2 : AgentState :=
  { AgentState.init 0 with
      lines_number := [0, 0, 3, 0, 0]
      lines_tile := [-1, -1, BLUE, -1, -1]
      grid_state :=
        [[0, 0, 0, 0, 0],
         [0, 0, 1, 0, 0],
         [0, 1, 0, 0, 0],
         [0, 0, 0, 0, 0],
         [0, 0, 0, 0, 0]] }

/-- All-zero Zobrist tables (a concrete instantiation of the random
tables). -/
def zeroTables : ZobristTables :=
  ⟨fun _ _ _ _ => 0, fun _ _ _ => 0, fun _ _ _ => 0, fun _ _ => 0, fun _ => 0, fun _ => 0⟩

/-- A concrete instantiation of the opaque `hash(str(score))` term. -/
def scoreHashC3 : Int → Nat := Int.toNat

/-- C3 fixture: an end-of-round position (no tiles on any display, the
first-player token was claimed by agent 0) in which agent 0 has pattern
line 0 filled, so `ENDROUND` scoring changes agent 0's score. -/
def sC3 : AzulState :=
  { agents :=
      [{ AgentState.init 0 with lines_number := [1, 0, 0, 0, 0], lines_tile := [BLUE, -1, -1, -1, -1] },
       AgentState.init 1]
    bag := []
    bag_used := []
    factories := List.replicate 5 TileDisplay.init
    centre_pool := TileDisplay.init
    first_agent_taken := true
    first_agent := 0
    next_first_agent := 0 }

/-- C4 fixture: agent 0 has one BLUE tile on the wall, with the
corresponding `number_of` counter at 1. -/
def sC4 : AzulState :=
  { agents :=
      [{ AgentState.init 0 with
           score := 3
           number_of := [1, 0, 0, 0, 0]
           grid_state :=
             [[1, 0, 0, 0, 0],
              [0, 0, 0, 0, 0],
              [0, 0, 0, 0, 0],
              [0, 0, 0, 0, 0],
              [0, 0, 0, 0, 0]] },
       AgentState.init 1]
    bag := [BLUE]
    bag_used := [YELLOW]
    factories := List.replicate 5 TileDisplay.init
    centre_pool := TileDisplay.init
    first_agent_taken := false
    first_agent := 1
    next_first_agent := -1 }

/-- C6 fixture: an agent with running score 5 and pattern line 0
filled; the round places one isolated tile worth 1 point. -/
def agC6 : AgentState :=
  { AgentState.init 0 with
      score := 5
      lines_number := [1, 0, 0, 0, 0]
      lines_tile := [BLUE, -1, -1, -1, -1] }

/-- C8 fixture: a drafting position whose only non-empty display is the
centre pool, holding two BLUE tiles. -/
def sC8 : AzulState :=
  { agents := [AgentState.init 0, AgentState.init 1]
    bag := []
    bag_used := []
    factories := List.replicate 5 TileDisplay.init
    centre_pool := { tiles := [2, 0, 0, 0, 0], total := 2 }
    first_agent_taken := false
    first_agent := 0
    next_first_agent := -1 }

/-- An action not produced by `getLegalActions` on `sC8`: it takes only
one of the two BLUE tiles from the centre. -/
def aC8 : GameAction :=
  .TAKE_FROM_CENTRE { number := 1, tile_type := BLUE, num_to_floor_line := 1 }

/-- C5 witness fixture: factory 0 holds four BLACK tiles, the centre
two BLUE and one RED; agent 0 has a fresh board. -/
def sC5 : AzulState :=
  { agents := [AgentState.init 0, AgentState.init 1]
    bag := []
    bag_used := []
    factories :=
      [{ tiles := [0, 0, 0, 4, 0], total := 4 },
       TileDisplay.init, TileDisplay.init, TileDisplay.init, TileDisplay.init]
    centre_pool := { tiles := [2, 0, 1, 0, 0], total := 3 }
    first_agent_taken := false
    first_agent := 0
    next_first_agent := -1 }

/-- A take the C5 characterization certifies: both centre BLUE tiles
onto pattern line 1. -/
def aC5 : GameAction :=
  .TAKE_FROM_CENTRE (specLineGrab (AgentState.init 0) 2 0 1)

/-- C7 witness fixture: score 1, three floor tiles (penalty −4), no
full pattern line. -/
def agC7 : AgentState :=
  { AgentState.init 0 with
      score := 1
      floor := [1, 1, 1, 0, 0, 0, 0]
      floor_tiles := [BLUE, BLUE, BLUE] }

/-- C10 witness fixture: all displays empty and the first-player token
never claimed this round (`next_first_agent = -1`). -/
def sC10 : AzulState :=
  { agents := [AgentState.init 0, AgentState.init 1]
    bag := []
    bag_used := []
    factories := List.replicate 5 TileDisplay.init
    centre_pool := TileDisplay.init
    first_agent_taken := false
    first_agent := 0
    next_first_agent := -1 }

end Azul

/-! # Theorems for the claims -/

namespace Azul

/-- **C1** (code_bug).  Tile conservation fails on a legal action from
the initial state: the constructor already deals 20 tiles onto the five
factories (total 100), the pseudo-agent's only legal action there is
`STARTROUND`, and `STARTROUND` re-initialises the factories, silently
discarding the 20 dealt tiles — the successor holds 80 tiles in total,
not 100. -/
theorem azul_C1_startround_destroys_tiles :
    getLegalActions 2 s0C1 2 = [.STARTROUND] ∧
    totalTiles s0C1 = 100 ∧
    (generateSuccessor id s0C1 .STARTROUND 2).map totalTiles = some 80 := by
  refine ⟨by decide, by decide, by decide⟩

/-- **C2** (counterexample).  On the exact fixture of the claim — a
filled pattern line of length 3 placed adjacent to one horizontal and
one vertical neighbour, empty floor — the round-scoring delta is not 2. -/
theorem azul_C2_counterexample :
    (agC2.ScoreRound).1.score - agC2.score ≠ 2 := by decide

/-- **C2** (amended).  That fixture scores 4: the horizontal run of 2
is worth 2 and the vertical run of 2 is worth 2 (each contiguous run
counts its full length, including the placed tile). -/
theorem azul_C2_fixture_scores_four :
    (agC2.ScoreRound).1.score - agC2.score = 4 := by decide

/-- **C3** (code_bug).  Re-XORing exactly the Zobrist-table terms for
everything that changed (cells, floor slots, pattern lines, display
presences, token holder) does not reproduce the from-scratch hash of
the successor: with the all-zero table instantiation, applying the
legal `ENDROUND` action to `sC3` changes agent 0's score, whose
contribution `hash(str(score))` to `_compute_zobrist_hash` is not a
Zobrist-table term, so the updated hash differs from the recomputed
one. -/
theorem azul_C3_incremental_hash_mismatch :
    GameAction.ENDROUND ∈ getLegalActions 2 sC3 0 ∧
    (generateSuccessor id sC3 .ENDROUND 0).map
        (fun s' => update_zobrist_hash zeroTables
          (computeZobristHash zeroTables scoreHashC3 sC3) (zobristChanges sC3 s')) ≠
      (generateSuccessor id sC3 .ENDROUND 0).map
        (computeZobristHash zeroTables scoreHashC3) := by
  refine ⟨by decide, by decide⟩

/-- **C4** (code_bug).  `clone` is not a complete value copy: it copies
score, pattern lines, grid, floor and bags but leaves the clone's
per-colour `number_of` counters at the freshly initialised zeros, so a
state whose agent has placed a tile is not observationally equal to its
clone. -/
theorem azul_C4_clone_drops_number_of :
    (sC4.clone.agents.getD 0 (AgentState.init 0)).number_of = [0, 0, 0, 0, 0] ∧
    (sC4.agents.getD 0 (AgentState.init 0)).number_of = [1, 0, 0, 0, 0] ∧
    (sC4.clone.agents.getD 0 (AgentState.init 0)).score =
      (sC4.agents.getD 0 (AgentState.init 0)).score ∧
    sC4.clone ≠ sC4 := by
  refine ⟨by decide, by decide, by decide, by decide⟩

/-- **C6** (code_bug).  `ScoreRound`'s own comment says it returns "the
change in the agent's score", but the code returns `self.score`, the
updated running total: for an agent whose score was 5 and whose round
delta is 1, the returned first component is 6, not 1. -/
theorem azul_C6_score_round_returns_total :
    (agC6.ScoreRound).2.1 = 6 ∧
    (agC6.ScoreRound).1.score - agC6.score = 1 ∧
    (agC6.ScoreRound).2.1 ≠ (agC6.ScoreRound).1.score - agC6.score := by
  refine ⟨by decide, by decide, by decide⟩

/-! ### Supporting lemmas -/

/-- One scoring-loop iteration never changes the agent's score field. -/
lemma scoreRoundLine_score (acc : AgentState × Int × List Int) (i : Nat) :
    (scoreRoundLine acc i).1.score = acc.1.score := by
  simp only [scoreRoundLine]
  split <;> rfl

lemma scoreRoundLines_score (l : List Nat) (acc : AgentState × Int × List Int) :
    (l.foldl scoreRoundLine acc).1.score = acc.1.score := by
  induction l generalizing acc with
  | nil => rfl
  | cons x xs ih => rw [List.foldl_cons, ih, scoreRoundLine_score]

/-- The pattern-line phase of `ScoreRound` leaves the score unchanged
(points are accumulated separately in `score_inc`). -/
lemma scoreRoundPlacement_score (ag : AgentState) :
    (scoreRoundPlacement ag).1.score = ag.score :=
  scoreRoundLines_score _ _

/-- A display with no tiles of any colour contributes no actions. -/
lemma displayTakes_nil (mk : TileGrab → GameAction) (tiles : List Int) (ag : AgentState)
    (h : ∀ t < 5, tiles.getD t 0 = 0) : displayTakes mk tiles ag = [] := by
  unfold displayTakes
  rw [List.flatMap_eq_nil_iff]
  intro t ht
  have h2 := h t (List.mem_range.mp ht)
  unfold displayTakesFor
  simp only [h2]
  simp

/-- The factory-construction loop appends one display per iteration. -/
lemma initFactoryStep_len (l : List Nat) (acc : List Int × List TileDisplay) :
    ((l.foldl initFactoryStep acc).2).length = acc.2.length + l.length := by
  induction l generalizing acc with
  | nil => simp
  | cons x xs ih =>
    rw [List.foldl_cons, ih]
    simp [initFactoryStep]
    omega

/-- With every display empty and the round-end branch disabled
(`next_first_agent = -1`), a non-pseudo agent gets no legal actions. -/
lemma legal_empty_of_empty_displays (num : Nat) (s : AzulState) (aid : Int)
    (hfac : ∀ fd ∈ s.factories, ∀ t < 5, fd.tiles.getD t 0 = 0)
    (hcen : ∀ t < 5, s.centre_pool.tiles.getD t 0 = 0)
    (hnext : s.next_first_agent = -1)
    (hne : aid ≠ (num : Int)) :
    getLegalActions num s aid = [] := by
  unfold getLegalActions
  rw [if_neg (by simp [hnext]), if_neg hne]
  cases hp : pyIdx s.agents.length aid with
  | none => rfl
  | some idx =>
    simp only []
    have hA : ∀ p ∈ s.factories.enum,
        displayTakes (GameAction.TAKE_FROM_FACTORY (p.1 : Int)) p.2.tiles
          (s.agents.getD idx (AgentState.init 0)) = [] := by
      intro p hp2
      obtain ⟨i, x⟩ := p
      obtain ⟨hlt, hx⟩ := List.mem_enum hp2
      exact displayTakes_nil _ _ _ (hfac _ (hx ▸ List.getElem_mem hlt))
    rw [List.flatMap_eq_nil_iff.mpr hA, displayTakes_nil _ _ _ hcen]
    rfl

/-! ### Claim C5: characterization of the drafting action set -/

/-- A grab is enumerated for (display colour `tile`, count `n`) exactly
for the claim's eligible lines, with the claim's tile split. -/
lemma mem_takeOptionsFor {ag : AgentState} {n : Int} {tile : Nat} {tg : TileGrab} :
    tg ∈ takeOptionsFor ag n tile ↔
      ∃ i < 5, specEligible ag tile i ∧ tg = specLineGrab ag n tile i := by
  unfold takeOptionsFor
  rw [List.mem_filterMap]
  constructor
  · rintro ⟨i, hi, hf⟩
    rw [List.mem_range] at hi
    refine ⟨i, hi, ?_⟩
    split_ifs at hf with h1 h2
    exact ⟨⟨by tauto, h2⟩, (Option.some_inj.mp hf).symm⟩
  · rintro ⟨i, hi, ⟨hel1, hel2⟩, rfl⟩
    refine ⟨i, List.mem_range.mpr hi, ?_⟩
    rw [if_neg (by tauto), if_neg hel2]
    rfl

/-- One colour's enumeration versus the claim's description. -/
lemma mem_displayTakesFor {mk : TileGrab → GameAction} {tiles : List Int}
    {ag : AgentState} {tile : Nat} {a : GameAction} :
    a ∈ displayTakesFor mk tiles ag tile ↔
      tiles.getD tile 0 ≠ 0 ∧
        ((∃ i < 5, specEligible ag tile i ∧
            a = mk (specLineGrab ag (tiles.getD tile 0) tile i)) ∨
          a = mk (specFloorGrab (tiles.getD tile 0) tile)) := by
  unfold displayTakesFor
  constructor
  · intro ha
    split_ifs at ha with h0
    · exact absurd ha (by simp)
    · refine ⟨h0, ?_⟩
      rw [List.mem_append, List.mem_map] at ha
      rcases ha with ⟨tg, htg, rfl⟩ | ha
      · obtain ⟨i, hi, hel, rfl⟩ := mem_takeOptionsFor.mp htg
        exact Or.inl ⟨i, hi, hel, rfl⟩
      · right
        rw [List.mem_singleton] at ha
        rw [ha]
        rfl
  · rintro ⟨h0, hsh⟩
    rw [if_neg h0, List.mem_append, List.mem_map]
    rcases hsh with ⟨i, hi, hel, rfl⟩ | rfl
    · exact Or.inl ⟨_, mem_takeOptionsFor.mpr ⟨i, hi, hel, rfl⟩, rfl⟩
    · exact Or.inr (by rw [List.mem_singleton]; rfl)

/-- One display's enumeration versus the claim's description. -/
lemma mem_displayTakes {mk : TileGrab → GameAction} {tiles : List Int}
    {ag : AgentState} {a : GameAction} :
    a ∈ displayTakes mk tiles ag ↔
      ∃ tile < 5, tiles.getD tile 0 ≠ 0 ∧
        ((∃ i < 5, specEligible ag tile i ∧
            a = mk (specLineGrab ag (tiles.getD tile 0) tile i)) ∨
          a = mk (specFloorGrab (tiles.getD tile 0) tile)) := by
  unfold displayTakes
  rw [List.mem_flatMap]
  constructor
  · rintro ⟨tile, ht, ha⟩
    exact ⟨tile, List.mem_range.mp ht, mem_displayTakesFor.mp ha⟩
  · rintro ⟨tile, ht, hsh⟩
    exact ⟨tile, List.mem_range.mpr ht, mem_displayTakesFor.mpr hsh⟩

/-- Every enumerated action carries the grab it was built from, tagged
with its colour. -/
lemma shape_of_mem_displayTakesFor {mk : TileGrab → GameAction} {tiles : List Int}
    {ag : AgentState} {tile : Nat} {a : GameAction}
    (ha : a ∈ displayTakesFor mk tiles ag tile) :
    ∃ tg : TileGrab, a = mk tg ∧ tg.tile_type = (tile : Int) := by
  rcases (mem_displayTakesFor.mp ha).2 with ⟨i, _, _, rfl⟩ | rfl
  · exact ⟨_, rfl, rfl⟩
  · exact ⟨_, rfl, rfl⟩

/-- The line options for one colour are pairwise distinct (the
destination line tags them). -/
lemma takeOptionsFor_nodup (ag : AgentState) (n : Int) (tile : Nat) :
    (takeOptionsFor ag n tile).Nodup := by
  unfold takeOptionsFor
  apply List.Nodup.filterMap ?_ (List.nodup_range _)
  intro a a' b hb hb'
  simp only [Option.mem_def] at hb hb'
  split_ifs at hb with h1 h2
  split_ifs at hb' with h3 h4
  have e1 := Option.some_inj.mp hb
  have e2 := Option.some_inj.mp hb'
  have : ((a : Int)) = ((a' : Int)) := by
    have := congrArg TileGrab.pattern_line_dest (e1.trans e2.symm)
    simpa using this
  exact_mod_cast this

/-- One colour's contribution is duplicate-free (the floor dump has
destination −1, the line takes destinations 0–4). -/
lemma displayTakesFor_nodup (mk : TileGrab → GameAction) (hmk : Function.Injective mk)
    (tiles : List Int) (ag : AgentState) (tile : Nat) :
    (displayTakesFor mk tiles ag tile).Nodup := by
  unfold displayTakesFor
  split_ifs with h0
  · exact List.nodup_nil
  · rw [List.nodup_append]
    refine ⟨(takeOptionsFor_nodup _ _ _).map hmk, List.nodup_singleton _, ?_⟩
    intro x hx hx'
    rw [List.mem_map] at hx
    obtain ⟨tg, htg, rfl⟩ := hx
    rw [List.mem_singleton] at hx'
    have heq := hmk hx'
    obtain ⟨i, _, _, rfl⟩ := mem_takeOptionsFor.mp htg
    have hd := congrArg TileGrab.pattern_line_dest heq
    simp only [specLineGrab] at hd
    omega

/-- One display's contribution is duplicate-free (colour tags separate
the per-colour groups). -/
lemma displayTakes_nodup (mk : TileGrab → GameAction) (hmk : Function.Injective mk)
    (tiles : List Int) (ag : AgentState) :
    (displayTakes mk tiles ag).Nodup := by
  unfold displayTakes
  rw [List.nodup_flatMap]
  refine ⟨fun tile _ => displayTakesFor_nodup mk hmk tiles ag tile, ?_⟩
  have hp : List.Pairwise (· ≠ ·) (List.range 5) := List.nodup_range 5
  refine hp.imp ?_
  intro t t' hne x hx hx'
  obtain ⟨tg, rfl, htt⟩ := shape_of_mem_displayTakesFor hx
  obtain ⟨tg', he, htt'⟩ := shape_of_mem_displayTakesFor hx'
  have : tg = tg' := hmk he
  subst this
  rw [htt] at htt'
  exact hne (by exact_mod_cast htt')

/-- Membership in the factory part of the enumeration, indexed by
factory id. -/
lemma mem_factoriesPart {s : AzulState} {ag : AgentState} {a : GameAction} :
    (a ∈ s.factories.enum.flatMap
        (fun p => displayTakes (GameAction.TAKE_FROM_FACTORY (p.1 : Int)) p.2.tiles ag)) ↔
      ∃ fid < s.factories.length,
        a ∈ displayTakes (GameAction.TAKE_FROM_FACTORY (fid : Int))
              ((s.factories.getD fid TileDisplay.init).tiles) ag := by
  rw [List.mem_flatMap]
  constructor
  · rintro ⟨⟨i, x⟩, hp, ha⟩
    obtain ⟨hlt, hx⟩ := List.mem_enum hp
    refine ⟨i, hlt, ?_⟩
    rw [List.getD_eq_getElem?_getD, List.getElem?_eq_getElem hlt]
    simpa [← hx] using ha
  · rintro ⟨fid, hlt, ha⟩
    refine ⟨(fid, s.factories[fid]), ?_, ?_⟩
    · have hlt2 : fid < s.factories.enum.length := by
        simpa [List.enum_length] using hlt
      have he : s.factories.enum[fid] = (fid, s.factories[fid]) :=
        List.getElem_enum _ _ _
      rw [← he]
      exact List.getElem_mem _
    · rw [List.getD_eq_getElem?_getD, List.getElem?_eq_getElem hlt] at ha
      exact ha

/-- The factory part is duplicate-free (factory ids tag the groups). -/
lemma factoriesPart_nodup (s : AzulState) (ag : AgentState) :
    (s.factories.enum.flatMap
        (fun p => displayTakes (GameAction.TAKE_FROM_FACTORY (p.1 : Int)) p.2.tiles ag)).Nodup := by
  rw [List.nodup_flatMap]
  constructor
  · intro p _
    exact displayTakes_nodup _ (fun x y h => by injection h) _ _
  · have hfst : List.Pairwise (fun (p q : Nat × TileDisplay) => p.1 ≠ q.1) s.factories.enum := by
      have h := List.nodup_range s.factories.length
      rw [← List.enum_map_fst] at h
      exact List.pairwise_map.mp h
    refine hfst.imp ?_
    intro p q hne x hx hx'
    rw [mem_displayTakes] at hx hx'
    obtain ⟨_, _, _, hsh⟩ := hx
    obtain ⟨_, _, _, hsh'⟩ := hx'
    have hfid : ∃ tg, x = GameAction.TAKE_FROM_FACTORY (p.1 : Int) tg := by
      rcases hsh with ⟨i, _, _, rfl⟩ | rfl <;> exact ⟨_, rfl⟩
    have hfid' : ∃ tg, x = GameAction.TAKE_FROM_FACTORY (q.1 : Int) tg := by
      rcases hsh' with ⟨i, _, _, rfl⟩ | rfl <;> exact ⟨_, rfl⟩
    obtain ⟨tg, rfl⟩ := hfid
    obtain ⟨tg', he⟩ := hfid'
    have : ((p.1 : Int)) = ((q.1 : Int)) := by injection he
    exact hne (by exact_mod_cast this)

/-- **C5** (confirmed).  On a drafting turn of a real agent (tiles
remain, the agent id is a valid non-pseudo id) with well-formed
non-negative display counts, `getLegalActions` contains an action iff
it is one of the claim's takes — per display and colour with at least
one tile, one take per eligible destination line (all tiles of the
colour, `min(count, free slots)` to the line, remainder to the floor)
plus one all-to-floor default — and contains each exactly once. -/
theorem azul_C5_legal_actions_characterization (num : Nat) (s : AzulState) (aid : Int)
    (htr : s.TilesRemaining = true)
    (h0 : 0 ≤ aid) (hnum : aid < (num : Int)) (hag : aid < (s.agents.length : Int))
    (hfacnn : ∀ fd ∈ s.factories, ∀ t < 5, 0 ≤ fd.tiles.getD t 0)
    (hcennn : ∀ t < 5, 0 ≤ s.centre_pool.tiles.getD t 0) :
    (∀ a, a ∈ getLegalActions num s aid ↔
      IsLegalTakeSpec s (s.agents.getD aid.toNat (AgentState.init 0)) a) ∧
    (getLegalActions num s aid).Nodup := by
  have hne : aid ≠ (num : Int) := by omega
  have hidx : pyIdx s.agents.length aid = some aid.toNat := by
    unfold pyIdx
    rw [if_pos ⟨h0, hag⟩]
  have hbranch : getLegalActions num s aid =
      s.factories.enum.flatMap
        (fun p => displayTakes (GameAction.TAKE_FROM_FACTORY (p.1 : Int)) p.2.tiles
          (s.agents.getD aid.toNat (AgentState.init 0))) ++
      displayTakes GameAction.TAKE_FROM_CENTRE s.centre_pool.tiles
        (s.agents.getD aid.toNat (AgentState.init 0)) := by
    unfold getLegalActions
    rw [if_neg (by simp [htr]), if_neg hne, hidx]
  constructor
  · intro a
    rw [hbranch, List.mem_append, mem_factoriesPart, mem_displayTakes]
    unfold IsLegalTakeSpec
    constructor
    · rintro (⟨fid, hlt, hmem⟩ | ⟨tile, ht5, hz, hsh⟩)
      · rw [mem_displayTakes] at hmem
        obtain ⟨tile, ht5, hz, hsh⟩ := hmem
        have hnn : 0 ≤ (s.factories.getD fid TileDisplay.init).tiles.getD tile 0 := by
          have hmemf : s.factories.getD fid TileDisplay.init ∈ s.factories := by
            rw [List.getD_eq_getElem?_getD, List.getElem?_eq_getElem hlt]
            exact List.getElem_mem _
          exact hfacnn _ hmemf tile ht5
        exact Or.inl ⟨fid, hlt, tile, ht5, by omega, hsh⟩
      · exact Or.inr ⟨tile, ht5, by have := hcennn tile ht5; omega, hsh⟩
    · rintro (⟨fid, hlt, tile, ht5, hz, hsh⟩ | ⟨tile, ht5, hz, hsh⟩)
      · exact Or.inl ⟨fid, hlt, mem_displayTakes.mpr ⟨tile, ht5, by omega, hsh⟩⟩
      · exact Or.inr ⟨tile, ht5, by omega, hsh⟩
  · rw [hbranch, List.nodup_append]
    refine ⟨factoriesPart_nodup s _,
      displayTakes_nodup _ (fun x y h => by injection h) _ _, ?_⟩
    intro x hx hx'
    rw [mem_factoriesPart] at hx
    obtain ⟨fid, _, hmem⟩ := hx
    rw [mem_displayTakes] at hmem hx'
    obtain ⟨_, _, _, hsh⟩ := hmem
    obtain ⟨_, _, _, hsh'⟩ := hx'
    have h1 : ∃ tg, x = GameAction.TAKE_FROM_FACTORY (fid : Int) tg := by
      rcases hsh with ⟨i, _, _, rfl⟩ | rfl <;> exact ⟨_, rfl⟩
    have h2 : ∃ tg, x = GameAction.TAKE_FROM_CENTRE tg := by
      rcases hsh' with ⟨i, _, _, rfl⟩ | rfl <;> exact ⟨_, rfl⟩
    obtain ⟨tg, rfl⟩ := h1
    obtain ⟨tg', he⟩ := h2
    cases he

/-- Witness for C5 on a concrete drafting position: the characterized
set certifies taking both centre BLUE tiles onto pattern line 1. -/
theorem azul_C5_witness :
    sC5.TilesRemaining = true ∧ aC5 ∈ getLegalActions 2 sC5 0 :=
  ⟨by decide,
    ((azul_C5_legal_actions_characterization 2 sC5 0 (by decide) (by decide) (by decide)
        (by decide) (by decide) (by decide)).1 aC5).mpr (by decide)⟩

/-! ### Claims C7–C10 -/

/-- **C7** (confirmed).  Score floor: starting from a non-negative
score, the score after `ScoreRound` is non-negative, and when the
floor-line penalty outweighs the current score plus the round's
placement points the resulting score is exactly 0. -/
theorem azul_C7_score_floor (ag : AgentState) (h : 0 ≤ ag.score) :
    0 ≤ (ag.ScoreRound).1.score ∧
    (ag.score + (scoreRoundPlacement ag).2.1 + floorPenalty (scoreRoundPlacement ag).1 < 0 →
      (ag.ScoreRound).1.score = 0) := by
  have hsc := scoreRoundPlacement_score ag
  unfold AgentState.ScoreRound
  refine ⟨?_, fun hlt => ?_⟩ <;> simp only [] <;> split_ifs <;> simp_all <;> omega

/-- Witness for C7: an agent with score 1 and a −4 floor penalty ends
the round with score exactly 0 (not −3). -/
theorem azul_C7_witness :
    0 ≤ agC7.score ∧
    agC7.score + (scoreRoundPlacement agC7).2.1 + floorPenalty (scoreRoundPlacement agC7).1 < 0 ∧
    (agC7.ScoreRound).1.score = 0 :=
  ⟨by decide, by decide, (azul_C7_score_floor agC7 (by decide)).2 (by decide)⟩

/-- **C8** (counterexample).  `generateSuccessor` does not fail on an
action absent from `getLegalActions`: taking a single BLUE tile from a
centre holding two is not a legal action, yet applying it succeeds. -/
theorem azul_C8_counterexample :
    aC8 ∉ getLegalActions 2 sC8 0 ∧
    (generateSuccessor id sC8 aC8 0).isSome = true := by
  refine ⟨by decide, by decide⟩

/-- **C8** (amended).  `generateSuccessor` performs no legality check
at all: an action outside `getLegalActions` is applied silently and
mutates the state (legality validation lives only in the separate
`validAction`/game-runner path, and the low-level tile asserts are the
only failure mode). -/
theorem azul_C8_apply_does_not_validate :
    aC8 ∉ getLegalActions 2 sC8 0 ∧
    (generateSuccessor id sC8 aC8 0).isSome = true ∧
    generateSuccessor id sC8 aC8 0 ≠ some sC8 := by
  refine ⟨by decide, by decide, by decide⟩

/-- **C9** (counterexample).  Construction with the unsupported agent
count 3 is not rejected: `AzulState(3)` builds a state with 3 agents
and the fixed 5 factories. -/
theorem azul_C9_counterexample :
    (AzulState.init 3 initialBag 0).map (fun s => (s.agents.length, s.factories.length)) =
      some (3, 5) := by decide

/-- **C9** (amended).  `AzulState.__init__` performs no agent-count
validation: every positive agent count constructs successfully, always
with 5 factories (the `player_count != 2` check lives in the API layer,
and agent count 0 fails only through `random.randrange(0)`). -/
theorem azul_C9_construction_unchecked (n : Nat) (bag : List Int) (fa : Int)
    (h : 1 ≤ n) :
    ∃ st, AzulState.init n bag fa = some st ∧ st.agents.length = n ∧
      st.factories.length = 5 := by
  have hn : ¬ n = 0 := by omega
  unfold AzulState.init
  simp only [hn, if_false]
  refine ⟨_, rfl, ?_, ?_⟩
  · dsimp only
    rw [List.length_map, List.length_range]
  · dsimp only
    rw [initFactoryStep_len]
    rfl

/-- Witness for C9 at agent count 3. -/
theorem azul_C9_witness :
    1 ≤ 3 ∧
    ∃ st, AzulState.init 3 initialBag 0 = some st ∧ st.agents.length = 3 ∧
      st.factories.length = 5 :=
  ⟨by decide, azul_C9_construction_unchecked 3 initialBag 0 (by decide)⟩

/-- **C10** (confirmed).  When no display holds any tile but the
first-player token was never claimed (`next_first_agent = -1`),
`getLegalActions` returns the synthetic `ENDROUND` action for no agent
id at all, and a regular drafting agent receives the empty action
list. -/
theorem azul_C10_no_endround_when_token_unclaimed (num : Nat) (s : AzulState)
    (hfac : ∀ fd ∈ s.factories, ∀ t < 5, fd.tiles.getD t 0 = 0)
    (hcen : ∀ t < 5, s.centre_pool.tiles.getD t 0 = 0)
    (hnext : s.next_first_agent = -1) :
    (∀ aid : Int, getLegalActions num s aid ≠ [.ENDROUND]) ∧
    (∀ aid : Int, 0 ≤ aid → aid < (num : Int) → getLegalActions num s aid = []) := by
  have hemp := legal_empty_of_empty_displays num s
  constructor
  · intro aid
    by_cases h : aid = (num : Int)
    · subst h
      unfold getLegalActions
      rw [if_neg (by simp [hnext]), if_pos rfl]
      simp
    · rw [hemp aid hfac hcen hnext h]
      simp
  · intro aid _ hlt
    exact hemp aid hfac hcen hnext (by omega)

/-- Witness for C10 on a concrete empty-display position. -/
theorem azul_C10_witness :
    getLegalActions 2 sC10 0 = [] ∧
    getLegalActions 2 sC10 1 = [] ∧
    getLegalActions 2 sC10 2 ≠ [.ENDROUND] :=
  ⟨(azul_C10_no_endround_when_token_unclaimed 2 sC10 (by decide) (by decide) (by decide)).2
      0 (by decide) (by decide),
   (azul_C10_no_endround_when_token_unclaimed 2 sC10 (by decide) (by decide) (by decide)).2
      1 (by decide) (by decide),
   (azul_C10_no_endround_when_token_unclaimed 2 sC10 (by decide) (by decide) (by decide)).1 2⟩

end Azul
